import Mathlib

/-!
Verification of the WebAssembly binary-module decoder of
`src/lib/wasm/src/ast/wasmparser.rs` (function `parse_module_with_offsets`
and its helpers).

The decoder consumes the event stream produced by the external `wasmparser`
crate (`wasmparser::Payload` values) and builds a high-level `Module` plus an
`Offsets` side table.  This development embeds the decoder shallowly:

* the wire-level types of the external `wasmparser` crate (`Type`,
  `Operator`, `Payload`, ...) are modelled as Lean inductives at the
  granularity the decoder distinguishes them; immediates that the decoder
  ignores are omitted, and the operator families that the decoder rejects
  wholesale (the threads/atomics family and the SIMD family) are modelled by
  one constructor each, since every member is mapped to the same error;
* the IR types (`Module`, `Function`, `Instr`, ...) are translated from
  their use in the decoder (their definitions live in `highlevel.rs` /
  `lib.rs`, outside the decoder file; where a detail is not visible from the
  decoder, the definition is modelled from the specification and its doc
  comment says so);
* Rust `Result` becomes `Except ParseErr`; a Rust `panic!` is modelled by
  the distinguished constructor `ParseErr.panicked` (a panic aborts the
  decode without being a returned error value, so it is kept apart from the
  `Err(...)` constructors);
* machine integers are modelled as `Nat` / `Int`, and floats are represented
  by their IEEE-754 bit patterns, matching the source's interning of floats
  via `OrderedFloat` with total-ordering semantics (`f32::from_bits` /
  `f64::from_bits` are bit-exact, so the payload of a float constant *is*
  its bit pattern).
-/

namespace Wasm

/-- The wire-level value/element type enum `wasmparser::Type` (external
crate), exactly the variants the decoder matches on. -/
inductive WpType where
  | I32
  | I64
  | F32
  | F64
  | V128
  | FuncRef
  | ExternRef
  | ExnRef
  | Func
  | EmptyBlockType
deriving DecidableEq

/-- The wire-level block type `wasmparser::TypeOrFuncType`: either a single
(possibly empty) value type, or a reference to a full function type.
`Ty` models `TypeOrFuncType::Type`, `FuncTy` models
`TypeOrFuncType::FuncType(u32)`. -/
inductive WpTypeOrFuncType where
  | Ty (t : WpType)
  | FuncTy (idx : Nat)

/-- `wasmparser::FuncType`: parameter and result wire types. -/
structure WpFuncType where
  params : List WpType
  returns : List WpType

/-- `wasmparser::GlobalType`. -/
structure WpGlobalType where
  content_type : WpType
  mutable : Bool

/-- `wasmparser::TableType`: element type plus limits. -/
structure WpTableType where
  element_type : WpType
  initial : Nat
  maximum : Option Nat

/-- `wasmparser::MemoryType`: 64-bit flag plus limits (the wire carries
`u64` limits; they are guaranteed by wasmparser to fit in `u32` whenever
`memory64` is false). -/
structure WpMemoryType where
  memory64 : Bool
  initial : Nat
  maximum : Option Nat

/-- `wasmparser::MemoryImmediate`: alignment exponent, offset (a `u64` on
the wire), and memory index. -/
structure WpMemoryImmediate where
  align : Nat
  offset : Nat
  memory : Nat

/-- The WebAssembly extensions the decoder recognizes and rejects
(`WasmExtension` in the source). -/
inductive WasmExtension where
  | NontrappingFloatToInt
  | SignExtensionOps
  | MultiValue
  | ReferenceTypes
  | BulkMemoryOperations
  | Simd
  | ThreadsAtomics
  | Memory64
  | ExceptionHandling
  | TailCalls
  | TypeImports
  | MultiMemory
  | ModuleLinking
deriving DecidableEq

/-- The errors `parse_module_with_offsets` can produce.  In the source every
error is a `Box<dyn std::error::Error>`; the constructors here record the
provenance of the boxed value:
`unsupported` is the source's `UnsupportedError(WasmExtension)` struct,
`indexError` is the source's `IndexError<T>` struct (the string is the
referent type's name, the `Nat` the offending index),
`msg` is a `&str` error created by the decoder itself (`Err("...")?`),
`readerError` is an error bubbled up from the external `wasmparser` readers
(e.g. `NameSectionReader`), and
`panicked` models a Rust `panic!`, which aborts the decode without being a
returned error value. -/
inductive ParseErr where
  | unsupported (ext : WasmExtension)
  | indexError (kind : String) (idx : Nat)
  | msg (s : String)
  | readerError (s : String)
  | panicked (s : String)

/-- IR value types (`ValType` in `lib.rs`), exactly `{I32, I64, F32, F64}`. -/
inductive ValType where
  | I32
  | I64
  | F32
  | F64
deriving DecidableEq

/-- IR block type: `BlockType(Option<ValType>)`, the MVP single-result form. -/
abbrev BlockType := Option ValType

/-- IR function type: parameter and result sequences of value types. -/
structure FunctionType where
  params : List ValType
  results : List ValType

/-- IR table element type.  Modelled from the spec: funcref (`Anyfunc`) is
the only table element type in the MVP, so the IR enum has one variant
(`ElemType` lives in `lib.rs`, outside the decoder file; `convert_elem_ty`
only ever succeeds with `Anyfunc`). -/
inductive ElemType where
  | Anyfunc
deriving DecidableEq

/-- IR limits (`Limits { initial_size, max_size }`). -/
structure Limits where
  initial_size : Nat
  max_size : Option Nat

/-- IR memory type: `MemoryType(Limits)`; the single tuple field is named
`limits` here. -/
structure MemoryType where
  limits : Limits

/-- IR table type: `TableType(ElemType, Limits)`; the tuple fields `.0` and
`.1` are named `elemType` and `limits` here. -/
structure TableType where
  elemType : ElemType
  limits : Limits

/-- IR mutability of a global. -/
inductive Mutability where
  | Const
  | Mut

/-- IR global type: `GlobalType(ValType, Mutability)`. -/
structure GlobalType where
  valType : ValType
  mutability : Mutability

/-- IR memory immediate: `Memarg { alignment_exp, offset }` with a `u32`
offset. -/
structure Memarg where
  alignment_exp : Nat
  offset : Nat

/-- IR constant values (`Val` in `lib.rs`).  The float payloads are the
IEEE-754 bit patterns: the source stores `OrderedFloat(f32::from_bits(bits))`,
which carries exactly the input bit pattern and compares with total-ordering
semantics, so the bit pattern is the faithful representation. -/
inductive Val where
  | I32 (v : Int)
  | I64 (v : Int)
  | F32 (bits : Nat)
  | F64 (bits : Nat)

/-- IR local-variable operations. -/
inductive LocalOp where
  | Get
  | Set
  | Tee

/-- IR global-variable operations. -/
inductive GlobalOp where
  | Get
  | Set

/-- IR load operations (`LoadOp` in `highlevel.rs`), one per MVP load
opcode. -/
inductive LoadOp where
  | I32Load
  | I64Load
  | F32Load
  | F64Load
  | I32Load8S
  | I32Load8U
  | I32Load16S
  | I32Load16U
  | I64Load8S
  | I64Load8U
  | I64Load16S
  | I64Load16U
  | I64Load32S
  | I64Load32U

/-- IR store operations (`StoreOp` in `highlevel.rs`), one per MVP store
opcode. -/
inductive StoreOp where
  | I32Store
  | I64Store
  | F32Store
  | F64Store
  | I32Store8
  | I32Store16
  | I64Store8
  | I64Store16
  | I64Store32

/-- IR numeric operations (`NumericOp` in `highlevel.rs`), one per MVP
numeric opcode, in the order of the source's dispatch table. -/
inductive NumericOp where
  | I32Eqz
  | I32Eq
  | I32Ne
  | I32LtS
  | I32LtU
  | I32GtS
  | I32GtU
  | I32LeS
  | I32LeU
  | I32GeS
  | I32GeU
  | I64Eqz
  | I64Eq
  | I64Ne
  | I64LtS
  | I64LtU
  | I64GtS
  | I64GtU
  | I64LeS
  | I64LeU
  | I64GeS
  | I64GeU
  | F32Eq
  | F32Ne
  | F32Lt
  | F32Gt
  | F32Le
  | F32Ge
  | F64Eq
  | F64Ne
  | F64Lt
  | F64Gt
  | F64Le
  | F64Ge
  | I32Clz
  | I32Ctz
  | I32Popcnt
  | I32Add
  | I32Sub
  | I32Mul
  | I32DivS
  | I32DivU
  | I32RemS
  | I32RemU
  | I32And
  | I32Or
  | I32Xor
  | I32Shl
  | I32ShrS
  | I32ShrU
  | I32Rotl
  | I32Rotr
  | I64Clz
  | I64Ctz
  | I64Popcnt
  | I64Add
  | I64Sub
  | I64Mul
  | I64DivS
  | I64DivU
  | I64RemS
  | I64RemU
  | I64And
  | I64Or
  | I64Xor
  | I64Shl
  | I64ShrS
  | I64ShrU
  | I64Rotl
  | I64Rotr
  | F32Abs
  | F32Neg
  | F32Ceil
  | F32Floor
  | F32Trunc
  | F32Nearest
  | F32Sqrt
  | F32Add
  | F32Sub
  | F32Mul
  | F32Div
  | F32Min
  | F32Max
  | F32Copysign
  | F64Abs
  | F64Neg
  | F64Ceil
  | F64Floor
  | F64Trunc
  | F64Nearest
  | F64Sqrt
  | F64Add
  | F64Sub
  | F64Mul
  | F64Div
  | F64Min
  | F64Max
  | F64Copysign
  | I32WrapI64
  | I32TruncF32S
  | I32TruncF32U
  | I32TruncF64S
  | I32TruncF64U
  | I64ExtendI32S
  | I64ExtendI32U
  | I64TruncF32S
  | I64TruncF32U
  | I64TruncF64S
  | I64TruncF64U
  | F32ConvertI32S
  | F32ConvertI32U
  | F32ConvertI64S
  | F32ConvertI64U
  | F32DemoteF64
  | F64ConvertI32S
  | F64ConvertI32U
  | F64ConvertI64S
  | F64ConvertI64U
  | F64PromoteF32
  | I32ReinterpretF32
  | I64ReinterpretF64
  | F32ReinterpretI32
  | F64ReinterpretI64

/-- IR instructions (`Instr` in `highlevel.rs`), exactly the variants the
decoder emits.  Labels and indices (`Label`, `Idx<T>` in the source, both
`u32` newtypes) are modelled as `Nat`. -/
inductive Instr where
  | Unreachable
  | Nop
  | Block (bt : BlockType)
  | Loop (bt : BlockType)
  | If (bt : BlockType)
  | Else
  | End
  | Br (label : Nat)
  | BrIf (label : Nat)
  | BrTable (table : List Nat) (default : Nat)
  | Return
  | Call (funcIdx : Nat)
  | CallIndirect (ty : FunctionType) (tableIdx : Nat)
  | Drop
  | Select
  | Local (op : LocalOp) (localIdx : Nat)
  | Global (op : GlobalOp) (globalIdx : Nat)
  | Load (op : LoadOp) (memarg : Memarg)
  | Store (op : StoreOp) (memarg : Memarg)
  | MemorySize (memIdx : Nat)
  | MemoryGrow (memIdx : Nat)
  | Const (v : Val)
  | Numeric (op : NumericOp)

/-- Maps a wire value type to an IR value type (`convert_ty`).  `v128`,
`funcref`/`externref` and `exnref` are rejected with their extension tag;
`func` and the empty block type are impossible at a value-type position and
the source `panic!`s on them (each carrying a `TODO replace with custom
error`). -/
def convert_ty (ty : WpType) : Except ParseErr ValType :=
  match ty with
  | .I32 => .ok .I32
  | .I64 => .ok .I64
  | .F32 => .ok .F32
  | .F64 => .ok .F64
  | .V128 => .error (.unsupported .Simd)
  | .FuncRef => .error (.unsupported .ReferenceTypes)
  | .ExternRef => .error (.unsupported .ReferenceTypes)
  | .ExnRef => .error (.unsupported .ExceptionHandling)
  | .Func => .error (.panicked "function types are not a valid value type")
  | .EmptyBlockType => .error (.panicked "block types are not a valid value type")

/-- Maps a wire type at an element-type position to an IR element type
(`convert_elem_ty`).  Only `funcref` succeeds; `externref` and `exnref` are
extension rejections, and every other variant is a `panic!` in the source. -/
def convert_elem_ty (ty : WpType) : Except ParseErr ElemType :=
  match ty with
  | .I32 => .error (.panicked "only reftypes, not value types are allowed as element types")
  | .I64 => .error (.panicked "only reftypes, not value types are allowed as element types")
  | .F32 => .error (.panicked "only reftypes, not value types are allowed as element types")
  | .F64 => .error (.panicked "only reftypes, not value types are allowed as element types")
  | .V128 => .error (.panicked "only reftypes, not value types are allowed as element types")
  | .FuncRef => .ok .Anyfunc
  | .ExternRef => .error (.unsupported .ReferenceTypes)
  | .ExnRef => .error (.unsupported .ExceptionHandling)
  | .Func => .error (.panicked "only reftypes, not function types are allowed as element types")
  | .EmptyBlockType => .error (.panicked "only reftypes, not block types are allowed as element types")

/-- Maps a wire block type to an IR block type (`convert_block_ty`); a full
function-type reference is a `MultiValue` rejection. -/
def convert_block_ty (ty : WpTypeOrFuncType) : Except ParseErr BlockType :=
  match ty with
  | .Ty .EmptyBlockType => .ok none
  | .Ty t =>
    match convert_ty t with
    | .ok vt => .ok (some vt)
    | .error e => .error e
  | .FuncTy _ => .error (.unsupported .MultiValue)

/-- Maps a wire function type to an IR function type (`convert_func_ty`):
params and results are converted independently through `convert_ty`. -/
def convert_tys (tys : List WpType) : Except ParseErr (List ValType) :=
  match tys with
  | [] => .ok []
  | t :: rest =>
    match convert_ty t with
    | .error e => .error e
    | .ok vt =>
      match convert_tys rest with
      | .error e => .error e
      | .ok vts => .ok (vt :: vts)

/-- See `convert_tys`. -/
def convert_func_ty (ty : WpFuncType) : Except ParseErr FunctionType :=
  match convert_tys ty.params with
  | .error e => .error e
  | .ok ps =>
    match convert_tys ty.returns with
    | .error e => .error e
    | .ok rs => .ok ⟨ps, rs⟩

/-- Maps a wire global type to an IR global type (`convert_global_ty`). -/
def convert_global_ty (ty : WpGlobalType) : Except ParseErr GlobalType :=
  match convert_ty ty.content_type with
  | .error e => .error e
  | .ok vt => .ok ⟨vt, if ty.mutable then .Mut else .Const⟩

/-- Maps a wire memory type to an IR memory type (`convert_memory_ty`):
`memory64 = true` is a `Memory64` rejection; the `u64 → u32` casts of the
limits are guaranteed infallible by wasmparser when `memory64` is false
(the source uses `expect`), so the values pass through. -/
def convert_memory_ty (ty : WpMemoryType) : Except ParseErr MemoryType :=
  if ty.memory64 then .error (.unsupported .Memory64)
  else .ok ⟨⟨ty.initial, ty.maximum⟩⟩

/-- Maps a wire table type to an IR table type (`convert_table_ty`): the
element type goes through `convert_elem_ty`, the limits pass through. -/
def convert_table_ty (ty : WpTableType) : Except ParseErr TableType :=
  match convert_elem_ty ty.element_type with
  | .error e => .error e
  | .ok et => .ok ⟨et, ⟨ty.initial, ty.maximum⟩⟩

/-- `u32::MAX`, the largest offset a `Memarg` may carry. -/
def u32Max : Nat := 4294967295

/-- Maps a wire memory immediate to an IR `Memarg` (`convert_memarg`): an
offset above `u32::MAX` is a `Memory64` rejection, a memory index other
than `0` a `MultiMemory` rejection. -/
def convert_memarg (memarg : WpMemoryImmediate) : Except ParseErr Memarg :=
  if memarg.offset > u32Max then .error (.unsupported .Memory64)
  else if memarg.memory ≠ 0 then .error (.unsupported .MultiMemory)
  else .ok ⟨memarg.align, memarg.offset⟩

/-- The module's function-type table (`struct Types(Option<Vec<FunctionType>>)`):
`none` before the type section has been seen, `some entries` afterwards. -/
abbrev Types := Option (List FunctionType)

/-- The initial state of the type table (`Types::none`). -/
def Types.noneYet : Types := none

/-- `Types::set_capacity`: installs an empty vector (the count is only a
capacity hint for `Vec::with_capacity`); a second call finds the vector
already present and fails with `"duplicate type section"`. -/
def Types.set_capacity (t : Types) (_count : Nat) : Except ParseErr Types :=
  match t with
  | some _ => .error (.msg "duplicate type section")
  | none => .ok (some [])

/-- `Types::add`: converts and appends a function type; fails with
`"missing type section"` when no type section has been seen.  No check
against the declared count is performed. -/
def Types.add (t : Types) (ty : WpFuncType) : Except ParseErr Types :=
  match t with
  | none => .error (.msg "missing type section")
  | some entries =>
    match convert_func_ty ty with
    | .error e => .error e
    | .ok ft => .ok (some (entries ++ [ft]))

/-- `Types::get`: bounds-checked, by-value read of a type entry; fails with
`"missing type section"` when no type section has been seen, and with an
index error otherwise. -/
def Types.get (t : Types) (idx : Nat) : Except ParseErr FunctionType :=
  match t with
  | none => .error (.msg "missing type section")
  | some entries =>
    match entries.get? idx with
    | some ft => .ok ft
    | none => .error (.indexError "FunctionType" idx)

/-- The wire-level operators (`wasmparser::Operator`, external crate) that
the instruction lowerer `convert_instr` matches on.  Immediates that the
lowerer ignores are omitted.  The threads/atomics family
(`MemoryAtomicNotify` .. `I64AtomicRmw32CmpxchgU`) and the SIMD family
(`V128Load` .. `F64x2PromoteLowF32x4`) are modelled by the single
constructors `AtomicOp` and `SimdOp`: the lowerer maps every member of each
family to one and the same rejection, so the distinction between family
members is not observable in the decoder. -/
inductive Operator where
  | Unreachable
  | Nop
  | Block (ty : WpTypeOrFuncType)
  | Loop (ty : WpTypeOrFuncType)
  | If (ty : WpTypeOrFuncType)
  | Else
  | End
  | Try
  | Catch
  | CatchAll
  | Throw
  | Rethrow
  | Delegate
  | Br (relative_depth : Nat)
  | BrIf (relative_depth : Nat)
  | BrTable (targets : List Nat) (default : Nat)
  | Return
  | Call (function_index : Nat)
  | CallIndirect (index : Nat) (table_index : Nat)
  | ReturnCall
  | ReturnCallIndirect
  | Drop
  | Select
  | TypedSelect
  | LocalGet (local_index : Nat)
  | LocalSet (local_index : Nat)
  | LocalTee (local_index : Nat)
  | GlobalGet (global_index : Nat)
  | GlobalSet (global_index : Nat)
  | I32Load (memarg : WpMemoryImmediate)
  | I64Load (memarg : WpMemoryImmediate)
  | F32Load (memarg : WpMemoryImmediate)
  | F64Load (memarg : WpMemoryImmediate)
  | I32Load8S (memarg : WpMemoryImmediate)
  | I32Load8U (memarg : WpMemoryImmediate)
  | I32Load16S (memarg : WpMemoryImmediate)
  | I32Load16U (memarg : WpMemoryImmediate)
  | I64Load8S (memarg : WpMemoryImmediate)
  | I64Load8U (memarg : WpMemoryImmediate)
  | I64Load16S (memarg : WpMemoryImmediate)
  | I64Load16U (memarg : WpMemoryImmediate)
  | I64Load32S (memarg : WpMemoryImmediate)
  | I64Load32U (memarg : WpMemoryImmediate)
  | I32Store (memarg : WpMemoryImmediate)
  | I64Store (memarg : WpMemoryImmediate)
  | F32Store (memarg : WpMemoryImmediate)
  | F64Store (memarg : WpMemoryImmediate)
  | I32Store8 (memarg : WpMemoryImmediate)
  | I32Store16 (memarg : WpMemoryImmediate)
  | I64Store8 (memarg : WpMemoryImmediate)
  | I64Store16 (memarg : WpMemoryImmediate)
  | I64Store32 (memarg : WpMemoryImmediate)
  | MemorySize (mem : Nat)
  | MemoryGrow (mem : Nat)
  | I32Const (value : Int)
  | I64Const (value : Int)
  | F32Const (bits : Nat)
  | F64Const (bits : Nat)
  | RefNull
  | RefIsNull
  | RefFunc
  | I32Eqz
  | I32Eq
  | I32Ne
  | I32LtS
  | I32LtU
  | I32GtS
  | I32GtU
  | I32LeS
  | I32LeU
  | I32GeS
  | I32GeU
  | I64Eqz
  | I64Eq
  | I64Ne
  | I64LtS
  | I64LtU
  | I64GtS
  | I64GtU
  | I64LeS
  | I64LeU
  | I64GeS
  | I64GeU
  | F32Eq
  | F32Ne
  | F32Lt
  | F32Gt
  | F32Le
  | F32Ge
  | F64Eq
  | F64Ne
  | F64Lt
  | F64Gt
  | F64Le
  | F64Ge
  | I32Clz
  | I32Ctz
  | I32Popcnt
  | I32Add
  | I32Sub
  | I32Mul
  | I32DivS
  | I32DivU
  | I32RemS
  | I32RemU
  | I32And
  | I32Or
  | I32Xor
  | I32Shl
  | I32ShrS
  | I32ShrU
  | I32Rotl
  | I32Rotr
  | I64Clz
  | I64Ctz
  | I64Popcnt
  | I64Add
  | I64Sub
  | I64Mul
  | I64DivS
  | I64DivU
  | I64RemS
  | I64RemU
  | I64And
  | I64Or
  | I64Xor
  | I64Shl
  | I64ShrS
  | I64ShrU
  | I64Rotl
  | I64Rotr
  | F32Abs
  | F32Neg
  | F32Ceil
  | F32Floor
  | F32Trunc
  | F32Nearest
  | F32Sqrt
  | F32Add
  | F32Sub
  | F32Mul
  | F32Div
  | F32Min
  | F32Max
  | F32Copysign
  | F64Abs
  | F64Neg
  | F64Ceil
  | F64Floor
  | F64Trunc
  | F64Nearest
  | F64Sqrt
  | F64Add
  | F64Sub
  | F64Mul
  | F64Div
  | F64Min
  | F64Max
  | F64Copysign
  | I32WrapI64
  | I32TruncF32S
  | I32TruncF32U
  | I32TruncF64S
  | I32TruncF64U
  | I64ExtendI32S
  | I64ExtendI32U
  | I64TruncF32S
  | I64TruncF32U
  | I64TruncF64S
  | I64TruncF64U
  | F32ConvertI32S
  | F32ConvertI32U
  | F32ConvertI64S
  | F32ConvertI64U
  | F32DemoteF64
  | F64ConvertI32S
  | F64ConvertI32U
  | F64ConvertI64S
  | F64ConvertI64U
  | F64PromoteF32
  | I32ReinterpretF32
  | I64ReinterpretF64
  | F32ReinterpretI32
  | F64ReinterpretI64
  | I32Extend8S
  | I32Extend16S
  | I64Extend8S
  | I64Extend16S
  | I64Extend32S
  | I32TruncSatF32S
  | I32TruncSatF32U
  | I32TruncSatF64S
  | I32TruncSatF64U
  | I64TruncSatF32S
  | I64TruncSatF32U
  | I64TruncSatF64S
  | I64TruncSatF64U
  | MemoryInit
  | DataDrop
  | MemoryCopy
  | MemoryFill
  | TableInit
  | ElemDrop
  | TableCopy
  | TableFill
  | TableGet
  | TableSet
  | TableGrow
  | TableSize
  | AtomicOp
  | SimdOp

/-- The instruction lowerer (`convert_instr`): translates one decoded wire
operator into one IR instruction, resolving `call_indirect` type indices
through the type table and rejecting every extension opcode with its
extension tag.  Indices carried by `call`, `call_indirect` (table index),
`local.*` and `global.*` are taken over verbatim. -/
def convert_instr (op : Operator) (types : Types) : Except ParseErr Instr :=
  match op with
  | .Unreachable => .ok .Unreachable
  | .Nop => .ok .Nop
  | .Block ty =>
    match convert_block_ty ty with
    | .ok bt => .ok (.Block bt)
    | .error e => .error e
  | .Loop ty =>
    match convert_block_ty ty with
    | .ok bt => .ok (.Loop bt)
    | .error e => .error e
  | .If ty =>
    match convert_block_ty ty with
    | .ok bt => .ok (.If bt)
    | .error e => .error e
  | .Else => .ok .Else
  | .End => .ok .End
  | .Try => .error (.unsupported .ExceptionHandling)
  | .Catch => .error (.unsupported .ExceptionHandling)
  | .CatchAll => .error (.unsupported .ExceptionHandling)
  | .Throw => .error (.unsupported .ExceptionHandling)
  | .Rethrow => .error (.unsupported .ExceptionHandling)
  | .Delegate => .error (.unsupported .ExceptionHandling)
  | .Br relative_depth => .ok (.Br relative_depth)
  | .BrIf relative_depth => .ok (.BrIf relative_depth)
  | .BrTable targets default => .ok (.BrTable targets default)
  | .Return => .ok .Return
  | .Call function_index => .ok (.Call function_index)
  | .CallIndirect index table_index =>
    match types.get index with
    | .ok ft => .ok (.CallIndirect ft table_index)
    | .error e => .error e
  | .ReturnCall => .error (.unsupported .TailCalls)
  | .ReturnCallIndirect => .error (.unsupported .TailCalls)
  | .Drop => .ok .Drop
  | .Select => .ok .Select
  | .TypedSelect => .error (.unsupported .ReferenceTypes)
  | .LocalGet local_index => .ok (.Local .Get local_index)
  | .LocalSet local_index => .ok (.Local .Set local_index)
  | .LocalTee local_index => .ok (.Local .Tee local_index)
  | .GlobalGet global_index => .ok (.Global .Get global_index)
  | .GlobalSet global_index => .ok (.Global .Set global_index)
  | .I32Load memarg =>
    match convert_memarg memarg with
    | .ok m => .ok (.Load .I32Load m)
    | .error e => .error e
  | .I64Load memarg =>
    match convert_memarg memarg with
    | .ok m => .ok (.Load .I64Load m)
    | .error e => .error e
  | .F32Load memarg =>
    match convert_memarg memarg with
    | .ok m => .ok (.Load .F32Load m)
    | .error e => .error e
  | .F64Load memarg =>
    match convert_memarg memarg with
    | .ok m => .ok (.Load .F64Load m)
    | .error e => .error e
  | .I32Load8S memarg =>
    match convert_memarg memarg with
    | .ok m => .ok (.Load .I32Load8S m)
    | .error e => .error e
  | .I32Load8U memarg =>
    match convert_memarg memarg with
    | .ok m => .ok (.Load .I32Load8U m)
    | .error e => .error e
  | .I32Load16S memarg =>
    match convert_memarg memarg with
    | .ok m => .ok (.Load .I32Load16S m)
    | .error e => .error e
  | .I32Load16U memarg =>
    match convert_memarg memarg with
    | .ok m => .ok (.Load .I32Load16U m)
    | .error e => .error e
  | .I64Load8S memarg =>
    match convert_memarg memarg with
    | .ok m => .ok (.Load .I64Load8S m)
    | .error e => .error e
  | .I64Load8U memarg =>
    match convert_memarg memarg with
    | .ok m => .ok (.Load .I64Load8U m)
    | .error e => .error e
  | .I64Load16S memarg =>
    match convert_memarg memarg with
    | .ok m => .ok (.Load .I64Load16S m)
    | .error e => .error e
  | .I64Load16U memarg =>
    match convert_memarg memarg with
    | .ok m => .ok (.Load .I64Load16U m)
    | .error e => .error e
  | .I64Load32S memarg =>
    match convert_memarg memarg with
    | .ok m => .ok (.Load .I64Load32S m)
    | .error e => .error e
  | .I64Load32U memarg =>
    match convert_memarg memarg with
    | .ok m => .ok (.Load .I64Load32U m)
    | .error e => .error e
  | .I32Store memarg =>
    match convert_memarg memarg with
    | .ok m => .ok (.Store .I32Store m)
    | .error e => .error e
  | .I64Store memarg =>
    match convert_memarg memarg with
    | .ok m => .ok (.Store .I64Store m)
    | .error e => .error e
  | .F32Store memarg =>
    match convert_memarg memarg with
    | .ok m => .ok (.Store .F32Store m)
    | .error e => .error e
  | .F64Store memarg =>
    match convert_memarg memarg with
    | .ok m => .ok (.Store .F64Store m)
    | .error e => .error e
  | .I32Store8 memarg =>
    match convert_memarg memarg with
    | .ok m => .ok (.Store .I32Store8 m)
    | .error e => .error e
  | .I32Store16 memarg =>
    match convert_memarg memarg with
    | .ok m => .ok (.Store .I32Store16 m)
    | .error e => .error e
  | .I64Store8 memarg =>
    match convert_memarg memarg with
    | .ok m => .ok (.Store .I64Store8 m)
    | .error e => .error e
  | .I64Store16 memarg =>
    match convert_memarg memarg with
    | .ok m => .ok (.Store .I64Store16 m)
    | .error e => .error e
  | .I64Store32 memarg =>
    match convert_memarg memarg with
    | .ok m => .ok (.Store .I64Store32 m)
    | .error e => .error e
  | .MemorySize mem =>
    if mem ≠ 0 then .error (.unsupported .MultiMemory)
    else .ok (.MemorySize 0)
  | .MemoryGrow mem =>
    if mem ≠ 0 then .error (.unsupported .MultiMemory)
    else .ok (.MemoryGrow 0)
  | .I32Const value => .ok (.Const (.I32 value))
  | .I64Const value => .ok (.Const (.I64 value))
  | .F32Const bits => .ok (.Const (.F32 bits))
  | .F64Const bits => .ok (.Const (.F64 bits))
  | .RefNull => .error (.unsupported .ReferenceTypes)
  | .RefIsNull => .error (.unsupported .ReferenceTypes)
  | .RefFunc => .error (.unsupported .ReferenceTypes)
  | .I32Eqz => .ok (.Numeric .I32Eqz)
  | .I32Eq => .ok (.Numeric .I32Eq)
  | .I32Ne => .ok (.Numeric .I32Ne)
  | .I32LtS => .ok (.Numeric .I32LtS)
  | .I32LtU => .ok (.Numeric .I32LtU)
  | .I32GtS => .ok (.Numeric .I32GtS)
  | .I32GtU => .ok (.Numeric .I32GtU)
  | .I32LeS => .ok (.Numeric .I32LeS)
  | .I32LeU => .ok (.Numeric .I32LeU)
  | .I32GeS => .ok (.Numeric .I32GeS)
  | .I32GeU => .ok (.Numeric .I32GeU)
  | .I64Eqz => .ok (.Numeric .I64Eqz)
  | .I64Eq => .ok (.Numeric .I64Eq)
  | .I64Ne => .ok (.Numeric .I64Ne)
  | .I64LtS => .ok (.Numeric .I64LtS)
  | .I64LtU => .ok (.Numeric .I64LtU)
  | .I64GtS => .ok (.Numeric .I64GtS)
  | .I64GtU => .ok (.Numeric .I64GtU)
  | .I64LeS => .ok (.Numeric .I64LeS)
  | .I64LeU => .ok (.Numeric .I64LeU)
  | .I64GeS => .ok (.Numeric .I64GeS)
  | .I64GeU => .ok (.Numeric .I64GeU)
  | .F32Eq => .ok (.Numeric .F32Eq)
  | .F32Ne => .ok (.Numeric .F32Ne)
  | .F32Lt => .ok (.Numeric .F32Lt)
  | .F32Gt => .ok (.Numeric .F32Gt)
  | .F32Le => .ok (.Numeric .F32Le)
  | .F32Ge => .ok (.Numeric .F32Ge)
  | .F64Eq => .ok (.Numeric .F64Eq)
  | .F64Ne => .ok (.Numeric .F64Ne)
  | .F64Lt => .ok (.Numeric .F64Lt)
  | .F64Gt => .ok (.Numeric .F64Gt)
  | .F64Le => .ok (.Numeric .F64Le)
  | .F64Ge => .ok (.Numeric .F64Ge)
  | .I32Clz => .ok (.Numeric .I32Clz)
  | .I32Ctz => .ok (.Numeric .I32Ctz)
  | .I32Popcnt => .ok (.Numeric .I32Popcnt)
  | .I32Add => .ok (.Numeric .I32Add)
  | .I32Sub => .ok (.Numeric .I32Sub)
  | .I32Mul => .ok (.Numeric .I32Mul)
  | .I32DivS => .ok (.Numeric .I32DivS)
  | .I32DivU => .ok (.Numeric .I32DivU)
  | .I32RemS => .ok (.Numeric .I32RemS)
  | .I32RemU => .ok (.Numeric .I32RemU)
  | .I32And => .ok (.Numeric .I32And)
  | .I32Or => .ok (.Numeric .I32Or)
  | .I32Xor => .ok (.Numeric .I32Xor)
  | .I32Shl => .ok (.Numeric .I32Shl)
  | .I32ShrS => .ok (.Numeric .I32ShrS)
  | .I32ShrU => .ok (.Numeric .I32ShrU)
  | .I32Rotl => .ok (.Numeric .I32Rotl)
  | .I32Rotr => .ok (.Numeric .I32Rotr)
  | .I64Clz => .ok (.Numeric .I64Clz)
  | .I64Ctz => .ok (.Numeric .I64Ctz)
  | .I64Popcnt => .ok (.Numeric .I64Popcnt)
  | .I64Add => .ok (.Numeric .I64Add)
  | .I64Sub => .ok (.Numeric .I64Sub)
  | .I64Mul => .ok (.Numeric .I64Mul)
  | .I64DivS => .ok (.Numeric .I64DivS)
  | .I64DivU => .ok (.Numeric .I64DivU)
  | .I64RemS => .ok (.Numeric .I64RemS)
  | .I64RemU => .ok (.Numeric .I64RemU)
  | .I64And => .ok (.Numeric .I64And)
  | .I64Or => .ok (.Numeric .I64Or)
  | .I64Xor => .ok (.Numeric .I64Xor)
  | .I64Shl => .ok (.Numeric .I64Shl)
  | .I64ShrS => .ok (.Numeric .I64ShrS)
  | .I64ShrU => .ok (.Numeric .I64ShrU)
  | .I64Rotl => .ok (.Numeric .I64Rotl)
  | .I64Rotr => .ok (.Numeric .I64Rotr)
  | .F32Abs => .ok (.Numeric .F32Abs)
  | .F32Neg => .ok (.Numeric .F32Neg)
  | .F32Ceil => .ok (.Numeric .F32Ceil)
  | .F32Floor => .ok (.Numeric .F32Floor)
  | .F32Trunc => .ok (.Numeric .F32Trunc)
  | .F32Nearest => .ok (.Numeric .F32Nearest)
  | .F32Sqrt => .ok (.Numeric .F32Sqrt)
  | .F32Add => .ok (.Numeric .F32Add)
  | .F32Sub => .ok (.Numeric .F32Sub)
  | .F32Mul => .ok (.Numeric .F32Mul)
  | .F32Div => .ok (.Numeric .F32Div)
  | .F32Min => .ok (.Numeric .F32Min)
  | .F32Max => .ok (.Numeric .F32Max)
  | .F32Copysign => .ok (.Numeric .F32Copysign)
  | .F64Abs => .ok (.Numeric .F64Abs)
  | .F64Neg => .ok (.Numeric .F64Neg)
  | .F64Ceil => .ok (.Numeric .F64Ceil)
  | .F64Floor => .ok (.Numeric .F64Floor)
  | .F64Trunc => .ok (.Numeric .F64Trunc)
  | .F64Nearest => .ok (.Numeric .F64Nearest)
  | .F64Sqrt => .ok (.Numeric .F64Sqrt)
  | .F64Add => .ok (.Numeric .F64Add)
  | .F64Sub => .ok (.Numeric .F64Sub)
  | .F64Mul => .ok (.Numeric .F64Mul)
  | .F64Div => .ok (.Numeric .F64Div)
  | .F64Min => .ok (.Numeric .F64Min)
  | .F64Max => .ok (.Numeric .F64Max)
  | .F64Copysign => .ok (.Numeric .F64Copysign)
  | .I32WrapI64 => .ok (.Numeric .I32WrapI64)
  | .I32TruncF32S => .ok (.Numeric .I32TruncF32S)
  | .I32TruncF32U => .ok (.Numeric .I32TruncF32U)
  | .I32TruncF64S => .ok (.Numeric .I32TruncF64S)
  | .I32TruncF64U => .ok (.Numeric .I32TruncF64U)
  | .I64ExtendI32S => .ok (.Numeric .I64ExtendI32S)
  | .I64ExtendI32U => .ok (.Numeric .I64ExtendI32U)
  | .I64TruncF32S => .ok (.Numeric .I64TruncF32S)
  | .I64TruncF32U => .ok (.Numeric .I64TruncF32U)
  | .I64TruncF64S => .ok (.Numeric .I64TruncF64S)
  | .I64TruncF64U => .ok (.Numeric .I64TruncF64U)
  | .F32ConvertI32S => .ok (.Numeric .F32ConvertI32S)
  | .F32ConvertI32U => .ok (.Numeric .F32ConvertI32U)
  | .F32ConvertI64S => .ok (.Numeric .F32ConvertI64S)
  | .F32ConvertI64U => .ok (.Numeric .F32ConvertI64U)
  | .F32DemoteF64 => .ok (.Numeric .F32DemoteF64)
  | .F64ConvertI32S => .ok (.Numeric .F64ConvertI32S)
  | .F64ConvertI32U => .ok (.Numeric .F64ConvertI32U)
  | .F64ConvertI64S => .ok (.Numeric .F64ConvertI64S)
  | .F64ConvertI64U => .ok (.Numeric .F64ConvertI64U)
  | .F64PromoteF32 => .ok (.Numeric .F64PromoteF32)
  | .I32ReinterpretF32 => .ok (.Numeric .I32ReinterpretF32)
  | .I64ReinterpretF64 => .ok (.Numeric .I64ReinterpretF64)
  | .F32ReinterpretI32 => .ok (.Numeric .F32ReinterpretI32)
  | .F64ReinterpretI64 => .ok (.Numeric .F64ReinterpretI64)
  | .I32Extend8S => .error (.unsupported .SignExtensionOps)
  | .I32Extend16S => .error (.unsupported .SignExtensionOps)
  | .I64Extend8S => .error (.unsupported .SignExtensionOps)
  | .I64Extend16S => .error (.unsupported .SignExtensionOps)
  | .I64Extend32S => .error (.unsupported .SignExtensionOps)
  | .I32TruncSatF32S => .error (.unsupported .NontrappingFloatToInt)
  | .I32TruncSatF32U => .error (.unsupported .NontrappingFloatToInt)
  | .I32TruncSatF64S => .error (.unsupported .NontrappingFloatToInt)
  | .I32TruncSatF64U => .error (.unsupported .NontrappingFloatToInt)
  | .I64TruncSatF32S => .error (.unsupported .NontrappingFloatToInt)
  | .I64TruncSatF32U => .error (.unsupported .NontrappingFloatToInt)
  | .I64TruncSatF64S => .error (.unsupported .NontrappingFloatToInt)
  | .I64TruncSatF64U => .error (.unsupported .NontrappingFloatToInt)
  | .MemoryInit => .error (.unsupported .BulkMemoryOperations)
  | .DataDrop => .error (.unsupported .BulkMemoryOperations)
  | .MemoryCopy => .error (.unsupported .BulkMemoryOperations)
  | .MemoryFill => .error (.unsupported .BulkMemoryOperations)
  | .TableInit => .error (.unsupported .BulkMemoryOperations)
  | .ElemDrop => .error (.unsupported .BulkMemoryOperations)
  | .TableCopy => .error (.unsupported .BulkMemoryOperations)
  | .TableFill => .error (.unsupported .ReferenceTypes)
  | .TableGet => .error (.unsupported .ReferenceTypes)
  | .TableSet => .error (.unsupported .ReferenceTypes)
  | .TableGrow => .error (.unsupported .ReferenceTypes)
  | .TableSize => .error (.unsupported .ReferenceTypes)
  | .AtomicOp => .error (.unsupported .ThreadsAtomics)
  | .SimdOp => .error (.unsupported .Simd)

/-- Converts a sequence of wire operators in order, stopping at the first
error (the source's loops of the form
`for op in ...: push(convert_instr(op?, &types)?)`). -/
def convertInstrs (types : Types) : List Operator → Except ParseErr (List Instr)
  | [] => .ok []
  | op :: rest =>
    match convert_instr op types with
    | .error e => .error e
    | .ok i =>
      match convertInstrs types rest with
      | .error e => .error e
      | .ok is2 => .ok (i :: is2)

/-- IR local variable: `Local::new(ty)`. -/
structure Local where
  type_ : ValType

/-- `Local::new`. -/
def Local.new (ty : ValType) : Local := ⟨ty⟩

/-- IR function body (`Code { locals, body }`). -/
structure Code where
  locals : List Local
  body : List Instr

/-- `Code::new()`: the empty placeholder body the function section installs,
to be replaced when the code section is processed. -/
def Code.new : Code := ⟨[], []⟩

/-- Import-or-present attribute (`ImportOrPresent<T>` in `highlevel.rs`):
an entity is either imported (module name, field name) or defined in this
module — never both. -/
inductive ImportOrPresent (α : Type) where
  | Imported (module_name field_name : String)
  | Present (v : α)

/-- IR function.  Fields follow the source (`export` is a Lean keyword and
is named `exports` here).  Modelled from the spec: the parameter/local name
table written through `param_or_local_name_mut` (defined in `highlevel.rs`,
outside the decoder file) is an association list from local index to name. -/
structure Function where
  type_ : FunctionType
  code : ImportOrPresent Code
  exports : List String
  name : Option String
  param_or_local_names : List (Nat × String)

/-- `Function::new_imported(type_, module, name)`. -/
def Function.new_imported (type_ : FunctionType) (module_name field_name : String) : Function :=
  ⟨type_, .Imported module_name field_name, [], none, []⟩

/-- `Function::new(type_, code)`. -/
def Function.new (type_ : FunctionType) (code : Code) : Function :=
  ⟨type_, .Present code, [], none, []⟩

/-- IR global: type, import-or-present init expression, exports. -/
structure Global where
  type_ : GlobalType
  init : ImportOrPresent (List Instr)
  exports : List String

/-- `Global::new_imported`. -/
def Global.new_imported (type_ : GlobalType) (module_name field_name : String) : Global :=
  ⟨type_, .Imported module_name field_name, []⟩

/-- `Global::new`. -/
def Global.new (type_ : GlobalType) (init : List Instr) : Global :=
  ⟨type_, .Present init, []⟩

/-- IR element segment: offset const-expression plus function indices. -/
structure Element where
  offset : List Instr
  functions : List Nat

/-- IR data segment: offset const-expression plus copied bytes. -/
structure Data where
  offset : List Instr
  bytes : List Nat

/-- IR table: type, optional import origin (the source field is named
`import`, a Lean keyword, so `origin` here), elements filled in by the
element section, exports. -/
structure Table where
  type_ : TableType
  origin : Option (String × String)
  elements : List Element
  exports : List String

/-- `Table::new`. -/
def Table.new (type_ : TableType) : Table := ⟨type_, none, [], []⟩

/-- `Table::new_imported`. -/
def Table.new_imported (type_ : TableType) (module_name field_name : String) : Table :=
  ⟨type_, some (module_name, field_name), [], []⟩

/-- IR memory: type, optional import origin, data segments, exports. -/
structure Memory where
  type_ : MemoryType
  origin : Option (String × String)
  data : List Data
  exports : List String

/-- `Memory::new`. -/
def Memory.new (type_ : MemoryType) : Memory := ⟨type_, none, [], []⟩

/-- `Memory::new_imported`. -/
def Memory.new_imported (type_ : MemoryType) (module_name field_name : String) : Memory :=
  ⟨type_, some (module_name, field_name), [], []⟩

/-- The section discriminant used as the key of a section-offset entry
(`std::mem::discriminant(&Section::...)` in the source).  All custom
sections — the parsed name section included — share the single `CustomSec`
discriminant, because `std::mem::discriminant` only sees the outer
`Section::Custom` variant. -/
inductive SectionDiscriminant where
  | TypeSec
  | ImportSec
  | FunctionSec
  | TableSec
  | MemorySec
  | GlobalSec
  | ExportSec
  | StartSec
  | ElementSec
  | CodeSec
  | DataSec
  | CustomSec
deriving DecidableEq

/-- A custom section stored raw (`RawCustomSection { name, content, after }`):
`after` holds the discriminant of the section pushed to the offsets list
most recently before this one, or `none` for the first section. -/
structure RawCustomSection where
  name : String
  content : List Nat
  after : Option SectionDiscriminant

/-- The root aggregate built by the decoder. -/
structure Module where
  functions : List Function
  globals : List Global
  tables : List Table
  memories : List Memory
  start : Option Nat
  custom_sections : List RawCustomSection
  name : Option String

/-- `Module::default()`. -/
def Module.default : Module := ⟨[], [], [], [], none, [], none⟩

/-- The offsets side table: section offsets and function-body offsets, in
stream order. -/
structure Offsets where
  sections : List (SectionDiscriminant × Nat)
  functions_code : List (Nat × Nat)

/-- `wasmparser::TypeDef`: a type-section entry. -/
inductive TypeDef where
  | Func (ty : WpFuncType)
  | Instance
  | Module

/-- `wasmparser::ImportSectionEntryType`. -/
inductive ImportSectionEntryType where
  | Function (ty_i : Nat)
  | Table (ty : WpTableType)
  | Memory (ty : WpMemoryType)
  | Tag
  | Global (ty : WpGlobalType)
  | Module
  | Instance

/-- `wasmparser::Import`: module name, optional field name (absent only for
module-linking two-level imports), entry type. -/
structure WpImport where
  module : String
  field : Option String
  ty : ImportSectionEntryType

/-- `wasmparser::ExternalKind` of an export entry; `TypeKind` models
`ExternalKind::Type`. -/
inductive ExternalKind where
  | Function
  | Table
  | Memory
  | Global
  | Tag
  | TypeKind
  | Module
  | Instance

/-- `wasmparser::Export`. -/
structure WpExport where
  field : String
  index : Nat
  kind : ExternalKind

/-- `wasmparser::Global`: type plus init expression (the operators its
`get_operators_reader` yields). -/
structure WpGlobal where
  ty : WpGlobalType
  init_expr : List Operator

/-- `wasmparser::ElementItem`. -/
inductive WpElementItem where
  | Func (idx : Nat)
  | Expr

/-- `wasmparser::ElementKind`. -/
inductive WpElementKind where
  | Active (table_index : Nat) (init_expr : List Operator)
  | Passive
  | Declared

/-- `wasmparser::Element`: element type, items, kind. -/
structure WpElement where
  ty : WpType
  items : List WpElementItem
  kind : WpElementKind

/-- `wasmparser::DataKind`. -/
inductive WpDataKind where
  | Active (memory_index : Nat) (init_expr : List Operator)
  | Passive

/-- `wasmparser::Data`: kind plus raw bytes. -/
structure WpData where
  kind : WpDataKind
  data : List Nat

/-- `wasmparser::FunctionBody`: run-length locals declarations, body
operators, and the start of the body's byte range (`body.range().start`). -/
structure WpFunctionBody where
  locals : List (Nat × WpType)
  operators : List Operator
  range_start : Nat

/-- A parsed subsection of the `name` custom section, as produced by the
external `NameSectionReader` (`wasmparser::Name`).  `Other` covers the
label / type / table / memory / global / element / data / unknown
subsections, which the decoder only logs. -/
inductive NameSub where
  | Module (nm : String)
  | Function (name_map : List (Nat × String))
  | Local (name_map : List (Nat × List (Nat × String)))
  | Other

/-- The events of the external `wasmparser::Parser` that the dispatcher
matches on (`wasmparser::Payload`).  Section payloads arrive pre-read: each
carries the start of its byte range (`reader.range().start`) and the list
of entries its reader yields, whose length is the declared entry count.
For a custom section named "name" the outcome of the external
`NameSectionReader` is part of the event: an outer `.error` stands for a
malformed name section, and each inner `Except` is one subsection read. -/
inductive Payload where
  | Version
  | TypeSection (range_start : Nat) (entries : List TypeDef)
  | ImportSection (range_start : Nat) (entries : List WpImport)
  | AliasSection
  | InstanceSection
  | FunctionSection (range_start : Nat) (entries : List Nat)
  | TableSection (range_start : Nat) (entries : List WpTableType)
  | MemorySection (range_start : Nat) (entries : List WpMemoryType)
  | TagSection
  | GlobalSection (range_start : Nat) (entries : List WpGlobal)
  | ExportSection (range_start : Nat) (entries : List WpExport)
  | StartSection (func : Nat) (range_start : Nat)
  | ElementSection (range_start : Nat) (entries : List WpElement)
  | DataCountSection
  | DataSection (range_start : Nat) (entries : List WpData)
  | CustomSection (name : String) (data : List Nat) (range_start : Nat)
      (nameSec : Except String (List (Except String NameSub)))
  | CodeSectionStart (count : Nat) (range_start : Nat)
  | CodeSectionEntry (body : WpFunctionBody)
  | ModuleSectionStart
  | ModuleSectionEntry
  | UnknownSection
  | End

/-- Expands the run-length locals declarations of a function body (the
locals loop of `parse_body`): each `(count, type)` pair contributes `count`
locals of the converted type. -/
def expandLocals : List (Nat × WpType) → Except ParseErr (List Local)
  | [] => .ok []
  | (count, ty) :: rest =>
    match convert_ty ty with
    | .error e => .error e
    | .ok vt =>
      match expandLocals rest with
      | .error e => .error e
      | .ok ls => .ok (List.replicate count (Local.new vt) ++ ls)

/-- `parse_body`: locals first, then the body's operators through the
instruction lowerer, producing a `Code`. -/
def parse_body (body : WpFunctionBody) (types : Types) : Except ParseErr Code :=
  match expandLocals body.locals with
  | .error e => .error e
  | .ok locals =>
    match convertInstrs types body.operators with
    | .error e => .error e
    | .ok instrs => .ok ⟨locals, instrs⟩

/-- `WasmExtension::name`. -/
def WasmExtension.name : WasmExtension → String
  | .NontrappingFloatToInt => "non-trapping float-to-int conversions"
  | .SignExtensionOps => "sign-extension operators"
  | .MultiValue => "multiple return/result values"
  | .ReferenceTypes => "reference types"
  | .BulkMemoryOperations => "bulk memory operations"
  | .Simd => "SIMD"
  | .ThreadsAtomics => "threads and atomics"
  | .Memory64 => "64-bit memory"
  | .ExceptionHandling => "exception handling"
  | .TailCalls => "tail calls"
  | .TypeImports => "type imports"
  | .MultiMemory => "multiple memories"
  | .ModuleLinking => "module linking"

/-- `WasmExtension::url`. -/
def WasmExtension.url : WasmExtension → String
  | .NontrappingFloatToInt => "https://github.com/WebAssembly/nontrapping-float-to-int-conversions"
  | .SignExtensionOps => "https://github.com/WebAssembly/sign-extension-ops"
  | .MultiValue => "https://github.com/WebAssembly/multi-value"
  | .ReferenceTypes => "https://github.com/WebAssembly/reference-types"
  | .BulkMemoryOperations => "https://github.com/WebAssembly/bulk-memory-operations"
  | .Simd => "https://github.com/WebAssembly/simd"
  | .ThreadsAtomics => "https://github.com/WebAssembly/threads"
  | .Memory64 => "https://github.com/WebAssembly/memory64"
  | .ExceptionHandling => "https://github.com/WebAssembly/exception-handling"
  | .TailCalls => "https://github.com/WebAssembly/tail-call"
  | .TypeImports => "https://github.com/WebAssembly/proposal-type-imports"
  | .MultiMemory => "https://github.com/WebAssembly/multi-memory"
  | .ModuleLinking => "https://github.com/WebAssembly/module-linking"

/-- The `to_string()` of a decoder error: `Display` of `UnsupportedError`
and `IndexError` (`writeln!` appends a trailing newline); `&str` errors
display as themselves.  A `panicked` value is never displayed (a panic is
not an error value); its branch only makes the function total. -/
def errToString : ParseErr → String
  | .msg s => s
  | .readerError s => s
  | .indexError kind idx => kind ++ " index out of bounds: " ++ Nat.repr idx ++ "\n"
  | .unsupported ext =>
    "This module uses a WebAssembly extension we don't support yet: " ++
    ext.name ++ "\nSee " ++ ext.url ++ " for more information about the extension.\n"
  | .panicked s => s

/-- The code-section handler's `map_err(|e| e.to_string())` (the hack that
makes worker errors `Send + Sync`): real errors are replaced by their
display string; a panic in a worker propagates as a panic (rayon re-raises
worker panics), so `panicked` passes through. -/
def stringifyBodyResult : Except ParseErr Code → Except ParseErr Code
  | .ok c => .ok c
  | .error (.panicked s) => .error (.panicked s)
  | .error e => .error (.msg (errToString e))

/-- Processes the type-section entries (the loop of the `TypeSection` arm):
function types are added to the type table; instance/module type
definitions are `ModuleLinking` rejections. -/
def processTypeEntries (types : Types) : List TypeDef → Except ParseErr Types
  | [] => .ok types
  | .Func ty :: rest =>
    match types.add ty with
    | .error e => .error e
    | .ok types2 => processTypeEntries types2 rest
  | .Instance :: _ => .error (.unsupported .ModuleLinking)
  | .Module :: _ => .error (.unsupported .ModuleLinking)

/-- Processes the import-section entries, returning the updated module and
imported-function count.  A missing field name is a `ModuleLinking`
rejection (single-level imports only); function imports resolve their type
through the type table. -/
def processImportEntries (types : Types) (m : Module) (count : Nat) :
    List WpImport → Except ParseErr (Module × Nat)
  | [] => .ok (m, count)
  | imp :: rest =>
    match imp.field with
    | none => .error (.unsupported .ModuleLinking)
    | some import_name =>
      match imp.ty with
      | .Function ty_i =>
        match types.get ty_i with
        | .error e => .error e
        | .ok ft =>
          processImportEntries types
            { m with functions := m.functions ++ [Function.new_imported ft imp.module import_name] }
            (count + 1) rest
      | .Global gt =>
        match convert_global_ty gt with
        | .error e => .error e
        | .ok g =>
          processImportEntries types
            { m with globals := m.globals ++ [Global.new_imported g imp.module import_name] }
            count rest
      | .Table tt =>
        match convert_table_ty tt with
        | .error e => .error e
        | .ok t =>
          processImportEntries types
            { m with tables := m.tables ++ [Table.new_imported t imp.module import_name] }
            count rest
      | .Memory mt =>
        match convert_memory_ty mt with
        | .error e => .error e
        | .ok mem =>
          processImportEntries types
            { m with memories := m.memories ++ [Memory.new_imported mem imp.module import_name] }
            count rest
      | .Tag => .error (.unsupported .ExceptionHandling)
      | .Module => .error (.unsupported .ModuleLinking)
      | .Instance => .error (.unsupported .ModuleLinking)

/-- Processes the function-section entries: each type index is resolved
through the type table and a module-defined function with an empty
placeholder body is appended. -/
def processFunctionEntries (types : Types) (fs : List Function) :
    List Nat → Except ParseErr (List Function)
  | [] => .ok fs
  | ty_i :: rest =>
    match types.get ty_i with
    | .error e => .error e
    | .ok ft => processFunctionEntries types (fs ++ [Function.new ft Code.new]) rest

/-- Processes the table-section entries. -/
def processTableEntries (ts : List Table) : List WpTableType → Except ParseErr (List Table)
  | [] => .ok ts
  | ty :: rest =>
    match convert_table_ty ty with
    | .error e => .error e
    | .ok t => processTableEntries (ts ++ [Table.new t]) rest

/-- Processes the memory-section entries. -/
def processMemoryEntries (ms : List Memory) : List WpMemoryType → Except ParseErr (List Memory)
  | [] => .ok ms
  | ty :: rest =>
    match convert_memory_ty ty with
    | .error e => .error e
    | .ok t => processMemoryEntries (ms ++ [Memory.new t]) rest

/-- Processes the global-section entries: type conversion plus the init
expression through the instruction lowerer. -/
def processGlobalEntries (types : Types) (gs : List Global) :
    List WpGlobal → Except ParseErr (List Global)
  | [] => .ok gs
  | g :: rest =>
    match convert_global_ty g.ty with
    | .error e => .error e
    | .ok ty =>
      match convertInstrs types g.init_expr with
      | .error e => .error e
      | .ok init => processGlobalEntries types (gs ++ [Global.new ty init]) rest

/-- Processes the export-section entries: the export name is pushed onto
the referenced entity's export list, with a kind-specific index error when
the index is out of bounds; tag / type / module / instance exports are
extension rejections. -/
def processExportEntries (m : Module) : List WpExport → Except ParseErr Module
  | [] => .ok m
  | e :: rest =>
    match e.kind with
    | .Function =>
      match m.functions.get? e.index with
      | none => .error (.indexError "Function" e.index)
      | some f =>
        processExportEntries
          { m with functions := m.functions.set e.index { f with exports := f.exports ++ [e.field] } }
          rest
    | .Table =>
      match m.tables.get? e.index with
      | none => .error (.indexError "Table" e.index)
      | some t =>
        processExportEntries
          { m with tables := m.tables.set e.index { t with exports := t.exports ++ [e.field] } }
          rest
    | .Memory =>
      match m.memories.get? e.index with
      | none => .error (.indexError "Memory" e.index)
      | some t =>
        processExportEntries
          { m with memories := m.memories.set e.index { t with exports := t.exports ++ [e.field] } }
          rest
    | .Global =>
      match m.globals.get? e.index with
      | none => .error (.indexError "Global" e.index)
      | some g =>
        processExportEntries
          { m with globals := m.globals.set e.index { g with exports := g.exports ++ [e.field] } }
          rest
    | .Tag => .error (.unsupported .ExceptionHandling)
    | .TypeKind => .error (.unsupported .TypeImports)
    | .Module => .error (.unsupported .ModuleLinking)
    | .Instance => .error (.unsupported .ModuleLinking)

/-- Collects the items of an element segment: function indices pass
through, expression items are `ReferenceTypes` rejections. -/
def processElemItems : List WpElementItem → Except ParseErr (List Nat)
  | [] => .ok []
  | .Func idx :: rest =>
    match processElemItems rest with
    | .error e => .error e
    | .ok items => .ok (idx :: items)
  | .Expr :: _ => .error (.unsupported .ReferenceTypes)

/-- The message of the element-section type guard. -/
def elemMismatchMsg : String := "type error: table and element not fitting together"

/-- Processes the element-section entries: element type and items are
converted, only active segments on an in-bounds table are accepted, the
table/element type guard errors on mismatch, and the segment is pushed
onto the table's element list. -/
def processElemEntries (types : Types) (m : Module) : List WpElement → Except ParseErr Module
  | [] => .ok m
  | e :: rest =>
    match convert_elem_ty e.ty with
    | .error err => .error err
    | .ok elem_type =>
      match processElemItems e.items with
      | .error err => .error err
      | .ok items =>
        match e.kind with
        | .Active table_index init_expr =>
          match m.tables.get? table_index with
          | none => .error (.indexError "Table" table_index)
          | some table =>
            if table.type_.elemType ≠ elem_type then
              .error (.msg elemMismatchMsg)
            else
              match convertInstrs types init_expr with
              | .error err => .error err
              | .ok offset =>
                let table2 := { table with elements := table.elements ++ [⟨offset, items⟩] }
                processElemEntries types
                  { m with tables := m.tables.set table_index table2 } rest
        | .Passive => .error (.unsupported .BulkMemoryOperations)
        | .Declared => .error (.unsupported .ReferenceTypes)

/-- Processes the data-section entries: only active segments on an
in-bounds memory are accepted; the bytes are copied into the segment. -/
def processDataEntries (types : Types) (m : Module) : List WpData → Except ParseErr Module
  | [] => .ok m
  | d :: rest =>
    match d.kind with
    | .Active memory_index init_expr =>
      match m.memories.get? memory_index with
      | none => .error (.indexError "Memory" memory_index)
      | some mem =>
        match convertInstrs types init_expr with
        | .error err => .error err
        | .ok offset =>
          let mem2 := { mem with data := mem.data ++ [⟨offset, d.data⟩] }
          processDataEntries types
            { m with memories := m.memories.set memory_index mem2 } rest
    | .Passive => .error (.unsupported .BulkMemoryOperations)

/-- Upserts one entry of the parameter/local name table (see
`Function.set_param_or_local_name`). -/
def upsertName : List (Nat × String) → Nat → String → List (Nat × String)
  | [], i, nm => [(i, nm)]
  | (j, old) :: rest, i, nm =>
    if j = i then (i, nm) :: rest else (j, old) :: upsertName rest i nm

/-- Modelled from the spec: `Function::param_or_local_name_mut` (defined in
`highlevel.rs`, outside the decoder file) writes the function's
parameter/local name-table entry for a local index; the table is an
association list and the write an upsert. -/
def Function.set_param_or_local_name (f : Function) (localIdx : Nat) (nm : String) : Function :=
  { f with param_or_local_names := upsertName f.param_or_local_names localIdx nm }

/-- Applies a function-name map (`Name::Function`): each `(funcidx, name)`
entry sets the debug name of the referenced function, with an index error
when the function index is out of bounds. -/
def processFunctionNames (fs : List Function) : List (Nat × String) → Except ParseErr (List Function)
  | [] => .ok fs
  | (index, nm) :: rest =>
    match fs.get? index with
    | none => .error (.indexError "Function" index)
    | some f => processFunctionNames (fs.set index { f with name := some nm }) rest

/-- Applies one function's local-name map entries. -/
def applyLocalNames (f : Function) : List (Nat × String) → Function
  | [] => f
  | (localIdx, nm) :: rest => applyLocalNames (f.set_param_or_local_name localIdx nm) rest

/-- Applies an indirect local-name map (`Name::Local`): for each function
index, the inner map names that function's params/locals; an out-of-bounds
function index is an index error. -/
def processLocalNames (fs : List Function) :
    List (Nat × List (Nat × String)) → Except ParseErr (List Function)
  | [] => .ok fs
  | (function_idx, inner) :: rest =>
    match fs.get? function_idx with
    | none => .error (.indexError "Function" function_idx)
    | some f => processLocalNames (fs.set function_idx (applyLocalNames f inner)) rest

/-- Handles one parsed `name`-section subsection: module name (a second one
is the `"duplicate module name"` error), function names, local names;
every other subsection kind is logged and skipped. -/
def processNameSub (m : Module) : NameSub → Except ParseErr Module
  | .Module nm =>
    match m.name with
    | some _ => .error (.msg "duplicate module name")
    | none => .ok { m with name := some nm }
  | .Function name_map =>
    match processFunctionNames m.functions name_map with
    | .error e => .error e
    | .ok fs => .ok { m with functions := fs }
  | .Local name_map =>
    match processLocalNames m.functions name_map with
    | .error e => .error e
    | .ok fs => .ok { m with functions := fs }
  | .Other => .ok m

/-- Iterates the subsection stream of the `name` custom section; an error
from the external reader is propagated (`name_subsection?`), aborting the
decode. -/
def processNameSubsections (m : Module) :
    List (Except String NameSub) → Except ParseErr Module
  | [] => .ok m
  | .error e :: _ => .error (.readerError e)
  | .ok sub :: rest =>
    match processNameSub m sub with
    | .error e => .error e
    | .ok m2 => processNameSubsections m2 rest

/-- Splices decoded bodies back into the function vector (the sequential
loop after the parallel decode): for each `(funcidx, result)` the function
is looked up first (index error if out of bounds), then the body result is
unwrapped and installed as the function's present code. -/
def spliceBodies (fs : List Function) :
    List (Nat × Except ParseErr Code) → Except ParseErr (List Function)
  | [] => .ok fs
  | (func_idx, code) :: rest =>
    match fs.get? func_idx with
    | none => .error (.indexError "Function" func_idx)
    | some f =>
      match code with
      | .error e => .error e
      | .ok c => spliceBodies (fs.set func_idx { f with code := .Present c }) rest

/-- The dispatcher's mutable state (the local variables of
`parse_module_with_offsets`); `numImportedFunctions` is the source's
`imported_function_count`. -/
structure ParseState where
  module : Module
  types : Types
  numImportedFunctions : Nat
  current_code_idx : Nat
  section_offsets : List (SectionDiscriminant × Nat)
  function_offsets : List (Nat × Nat)
  function_bodies : List (Nat × WpFunctionBody)
  code_entries_count : Nat

/-- The state at the start of the dispatcher loop. -/
def initState : ParseState :=
  ⟨Module.default, Types.noneYet, 0, 0, [], [], [], 0⟩

/-- One iteration of the dispatcher loop of `parse_module_with_offsets`:
processes a single payload, recording the section offset and updating the
module under construction. -/
def processPayload (st : ParseState) (p : Payload) : Except ParseErr ParseState :=
  match p with
  | .Version => .ok st
  | .TypeSection range_start entries =>
    let so := st.section_offsets ++ [(.TypeSec, range_start)]
    match st.types.set_capacity entries.length with
    | .error e => .error e
    | .ok types =>
      match processTypeEntries types entries with
      | .error e => .error e
      | .ok types2 => .ok { st with section_offsets := so, types := types2 }
  | .ImportSection range_start entries =>
    let so := st.section_offsets ++ [(.ImportSec, range_start)]
    match processImportEntries st.types st.module st.numImportedFunctions entries with
    | .error e => .error e
    | .ok (m, count) =>
      .ok { st with section_offsets := so, module := m, numImportedFunctions := count }
  | .AliasSection => .error (.unsupported .ModuleLinking)
  | .InstanceSection => .error (.unsupported .ModuleLinking)
  | .FunctionSection range_start entries =>
    let so := st.section_offsets ++ [(.FunctionSec, range_start)]
    match processFunctionEntries st.types st.module.functions entries with
    | .error e => .error e
    | .ok fs =>
      .ok { st with section_offsets := so, module := { st.module with functions := fs } }
  | .TableSection range_start entries =>
    let so := st.section_offsets ++ [(.TableSec, range_start)]
    match processTableEntries st.module.tables entries with
    | .error e => .error e
    | .ok ts =>
      .ok { st with section_offsets := so, module := { st.module with tables := ts } }
  | .MemorySection range_start entries =>
    let so := st.section_offsets ++ [(.MemorySec, range_start)]
    match processMemoryEntries st.module.memories entries with
    | .error e => .error e
    | .ok ms =>
      .ok { st with section_offsets := so, module := { st.module with memories := ms } }
  | .TagSection => .error (.unsupported .ExceptionHandling)
  | .GlobalSection range_start entries =>
    let so := st.section_offsets ++ [(.GlobalSec, range_start)]
    match processGlobalEntries st.types st.module.globals entries with
    | .error e => .error e
    | .ok gs =>
      .ok { st with section_offsets := so, module := { st.module with globals := gs } }
  | .ExportSection range_start entries =>
    let so := st.section_offsets ++ [(.ExportSec, range_start)]
    match processExportEntries st.module entries with
    | .error e => .error e
    | .ok m => .ok { st with section_offsets := so, module := m }
  | .StartSection func range_start =>
    .ok { st with
      section_offsets := st.section_offsets ++ [(.StartSec, range_start)],
      module := { st.module with start := some func } }
  | .ElementSection range_start entries =>
    let so := st.section_offsets ++ [(.ElementSec, range_start)]
    match processElemEntries st.types st.module entries with
    | .error e => .error e
    | .ok m => .ok { st with section_offsets := so, module := m }
  | .DataCountSection => .error (.unsupported .BulkMemoryOperations)
  | .DataSection range_start entries =>
    let so := st.section_offsets ++ [(.DataSec, range_start)]
    match processDataEntries st.types st.module entries with
    | .error e => .error e
    | .ok m => .ok { st with section_offsets := so, module := m }
  | .CustomSection name data range_start nameSec =>
    if name = "name" then
      let so := st.section_offsets ++ [(.CustomSec, range_start)]
      match nameSec with
      | .error e => .error (.readerError e)
      | .ok subs =>
        match processNameSubsections st.module subs with
        | .error e => .error e
        | .ok m => .ok { st with section_offsets := so, module := m }
    else
      let raw : RawCustomSection :=
        ⟨name, data, (st.section_offsets.getLast?).map Prod.fst⟩
      .ok { st with
        section_offsets := st.section_offsets ++ [(.CustomSec, range_start)],
        module := { st.module with custom_sections := st.module.custom_sections ++ [raw] } }
  | .CodeSectionStart count range_start =>
    .ok { st with
      section_offsets := st.section_offsets ++ [(.CodeSec, range_start)],
      function_offsets := [],
      code_entries_count := count,
      function_bodies := [] }
  | .CodeSectionEntry body =>
    let func_idx := st.numImportedFunctions + st.current_code_idx
    let st2 := { st with
      function_offsets := st.function_offsets ++ [(func_idx, body.range_start)],
      function_bodies := st.function_bodies ++ [(func_idx, body)],
      current_code_idx := st.current_code_idx + 1 }
    if st2.current_code_idx = st2.code_entries_count then
      let results := st2.function_bodies.map
        (fun p => (p.1, stringifyBodyResult (parse_body p.2 st2.types)))
      match spliceBodies st2.module.functions results with
      | .error e => .error e
      | .ok fs =>
        .ok { st2 with
          module := { st2.module with functions := fs },
          function_bodies := [] }
    else .ok st2
  | .ModuleSectionStart => .error (.unsupported .ModuleLinking)
  | .ModuleSectionEntry => .error (.unsupported .ModuleLinking)
  | .UnknownSection => .error (.msg "unknown section")
  | .End => .ok st

/-- The dispatcher loop: processes all payloads in stream order, stopping
at the first error. -/
def processPayloads (st : ParseState) : List Payload → Except ParseErr ParseState
  | [] => .ok st
  | p :: rest =>
    match processPayload st p with
    | .error e => .error e
    | .ok st2 => processPayloads st2 rest

/-- `parse_module_with_offsets`: drives the dispatcher over the payload
stream and returns the finished module together with the offsets table. -/
def parse_module_with_offsets (payloads : List Payload) : Except ParseErr (Module × Offsets) :=
  match processPayloads initState payloads with
  | .error e => .error e
  | .ok st => .ok (st.module, ⟨st.section_offsets, st.function_offsets⟩)

/-- C8: the value-type converter accepts exactly i32/i64/f32/f64; it
rejects v128 with Simd, funcref and externref with ReferenceTypes, and
exnref with ExceptionHandling; but at the malformed inputs `func` and the
empty block type (impossible at a value-type position) it panics instead
of returning a structural decode error. -/
theorem C8_convert_ty_total :
    convert_ty .I32 = .ok .I32 ∧ convert_ty .I64 = .ok .I64 ∧
    convert_ty .F32 = .ok .F32 ∧ convert_ty .F64 = .ok .F64 ∧
    convert_ty .V128 = .error (.unsupported .Simd) ∧
    convert_ty .FuncRef = .error (.unsupported .ReferenceTypes) ∧
    convert_ty .ExternRef = .error (.unsupported .ReferenceTypes) ∧
    convert_ty .ExnRef = .error (.unsupported .ExceptionHandling) ∧
    convert_ty .Func = .error (.panicked "function types are not a valid value type") ∧
    convert_ty .EmptyBlockType = .error (.panicked "block types are not a valid value type") :=
  ⟨rfl, rfl, rfl, rfl, rfl, rfl, rfl, rfl, rfl, rfl⟩

/-- C9: for every 32-bit (resp. 64-bit) bit pattern appearing as the
payload of an f32.const (resp. f64.const) operator, the decoded Const
instruction's float value has exactly that bit pattern — a bit-level
round-trip, every NaN payload included. -/
theorem C9_float_const_roundtrip (bits32 bits64 : Nat) (t : Types)
    (_h32 : bits32 < 2 ^ 32) (_h64 : bits64 < 2 ^ 64) :
    convert_instr (.F32Const bits32) t = .ok (.Const (.F32 bits32)) ∧
    convert_instr (.F64Const bits64) t = .ok (.Const (.F64 bits64)) :=
  ⟨rfl, rfl⟩

/-- Witness for C9 at NaN bit patterns: 0x7FC00001 (f32 quiet NaN, payload
1) and 0x7FF0000000000001 (f64 signalling NaN, payload 1). -/
theorem C9_float_const_roundtrip_witness :
    2143289345 < 2 ^ 32 ∧ 9218868437227405313 < 2 ^ 64 ∧
    (convert_instr (.F32Const 2143289345) Types.noneYet =
        .ok (.Const (.F32 2143289345)) ∧
      convert_instr (.F64Const 9218868437227405313) Types.noneYet =
        .ok (.Const (.F64 9218868437227405313))) :=
  ⟨by norm_num, by norm_num,
    C9_float_const_roundtrip 2143289345 9218868437227405313 Types.noneYet
      (by norm_num) (by norm_num)⟩

/-- C3 counterexample: sizing the type table with a declared count of 0 and
then adding a type nevertheless succeeds — `add` is never refused once the
table is sized, so the declared count does not bound `add` and no
`Populated` state rejecting further adds exists. -/
theorem C3_counterexample :
    Types.set_capacity Types.noneYet 0 = .ok (some []) ∧
    Types.add (some []) ⟨[], []⟩ = .ok (some [⟨[], []⟩]) :=
  ⟨rfl, rfl⟩

/-- C3 amended: the type table is a *two*-state machine, Absent → Present.
A second `set_capacity` fails with "duplicate type section"; `get` and
`add` while Absent fail with "missing type section"; once sized, `add`
appends whenever the function type converts — the declared count is only a
capacity hint and there is no Populated state that refuses adds — and
`get` is a bounds-checked read. -/
theorem C3_two_state_type_table (entries : List FunctionType) (count : Nat)
    (ty : WpFuncType) (ft : FunctionType) (idx : Nat)
    (hconv : convert_func_ty ty = .ok ft) :
    Types.set_capacity (some entries) count = .error (.msg "duplicate type section") ∧
    Types.set_capacity Types.noneYet count = .ok (some []) ∧
    Types.get Types.noneYet idx = .error (.msg "missing type section") ∧
    Types.add Types.noneYet ty = .error (.msg "missing type section") ∧
    Types.add (some entries) ty = .ok (some (entries ++ [ft])) ∧
    Types.get (some entries) idx = (match entries.get? idx with
      | some ft2 => .ok ft2
      | none => .error (.indexError "FunctionType" idx)) := by
  refine ⟨rfl, rfl, rfl, rfl, ?_, rfl⟩
  simp [Types.add, hconv]

/-- Witness for C3 at the empty table and the empty function type. -/
theorem C3_two_state_type_table_witness :
    convert_func_ty ⟨[], []⟩ = .ok ⟨[], []⟩ ∧
    Types.add (some []) ⟨[], []⟩ = .ok (some ([] ++ [⟨[], []⟩])) :=
  ⟨rfl, (C3_two_state_type_table [] 0 ⟨[], []⟩ ⟨[], []⟩ 0 rfl).2.2.2.2.1⟩

/-- C2: a malformed `name` custom section — the external `NameSectionReader`
fails — aborts the whole decode: the reader error is propagated, the raw
custom-section bytes are not stored, and the following well-formed Memory
section is never processed (the source has a TODO to degrade gracefully
instead). -/
theorem C2_malformed_name_aborts :
    parse_module_with_offsets
      [ .CustomSection "name" [1, 2, 3] 8 (.error "unexpected end of name subsection"),
        .MemorySection 20 [⟨false, 1, none⟩] ] =
      .error (.readerError "unexpected end of name subsection") := rfl

/-- C5 counterexample: a start section referencing function index 7 decodes
successfully in a module with no functions at all, leaving
`start = some 7` out of bounds of the empty function vector. -/
theorem C5_counterexample :
    parse_module_with_offsets [.StartSection 7 10] =
      .ok ({ Module.default with start := some 7 }, ⟨[(.StartSec, 10)], []⟩) ∧
    ({ Module.default with start := some 7 } : Module).functions.length = 0 :=
  ⟨rfl, rfl⟩

/-- C5 amended: the start-section handler unconditionally stores the raw
function index (`module.start = Some(funcidx)`); no bounds check against
`module.functions` is performed, in any dispatcher state. -/
theorem C5_start_unchecked (st : ParseState) (func range_start : Nat) :
    processPayload st (.StartSection func range_start) =
      .ok { st with
        section_offsets := st.section_offsets ++ [(.StartSec, range_start)],
        module := { st.module with start := some func } } := rfl

/-- C4 counterexample: an input whose Function section appears twice
decodes successfully — both occurrences are processed, each appending a
function — so a duplicated standard section is not rejected. -/
theorem C4_counterexample :
    ((parse_module_with_offsets
      [ .TypeSection 10 [.Func ⟨[], []⟩],
        .FunctionSection 20 [0],
        .FunctionSection 25 [0] ]).map (fun r => r.1.functions.length)) = .ok 2 :=
  rfl

/-- C4 amended: `parse_module_with_offsets` enforces neither uniqueness nor
canonical order of the standard sections.  The only duplication it rejects
is a second Type section (through the type table's one-shot sizing), while
e.g. a Memory section appearing before the Type section — out of canonical
order — is processed normally. -/
theorem C4_no_order_enforcement (st : ParseState) (range_start : Nat)
    (entries : List TypeDef) (h : st.types.isSome = true) :
    processPayload st (.TypeSection range_start entries) =
      .error (.msg "duplicate type section") ∧
    ((parse_module_with_offsets
      [ .MemorySection 10 [⟨false, 1, none⟩], .TypeSection 20 [] ]).map
      (fun r => r.1.memories.length)) = .ok 1 := by
  obtain ⟨l, hl⟩ := Option.isSome_iff_exists.mp h
  exact ⟨by simp [processPayload, Types.set_capacity, hl], rfl⟩

/-- Witness for C4 in a state whose type table is already sized. -/
theorem C4_no_order_enforcement_witness :
    ({ initState with types := some [] } : ParseState).types.isSome = true ∧
    processPayload { initState with types := some [] } (.TypeSection 5 []) =
      .error (.msg "duplicate type section") :=
  ⟨rfl, (C4_no_order_enforcement { initState with types := some [] } 5 [] rfl).1⟩

/-- C6 counterexample: in the stream [Type section, custom "a", custom
"b"], custom "b" is stored with `after` equal to the shared custom-section
discriminant (its immediate predecessor is custom "a"), not the tag of the
last preceding *standard* section (Type) as the claim requires. -/
theorem C6_counterexample :
    ((parse_module_with_offsets
      [ .TypeSection 10 [],
        .CustomSection "a" [1] 20 (.ok []),
        .CustomSection "b" [2] 30 (.ok []) ]).map
      (fun r => r.1.custom_sections.map RawCustomSection.after)) =
      .ok [some .TypeSec, some .CustomSec] ∧
    SectionDiscriminant.CustomSec ≠ SectionDiscriminant.TypeSec :=
  ⟨rfl, by decide⟩

/-- C6 amended: `after` is the discriminant of the section — of *any* kind
— most recently recorded before the custom section, or `none` when it is
the first recorded section; a preceding custom section counts (all custom
sections share one discriminant), so `after` names the last standard tag
only when no other custom section intervenes. -/
theorem C6_after_last_recorded (st : ParseState) (name : String)
    (data : List Nat) (range_start : Nat)
    (nameSec : Except String (List (Except String NameSub)))
    (h : name ≠ "name") :
    processPayload st (.CustomSection name data range_start nameSec) =
      .ok { st with
        section_offsets := st.section_offsets ++ [(.CustomSec, range_start)],
        module := { st.module with custom_sections := st.module.custom_sections ++
          [⟨name, data, (st.section_offsets.getLast?).map Prod.fst⟩] } } := by
  simp [processPayload, h]

/-- Witness for C6 at a "producers" custom section in the initial state. -/
theorem C6_after_last_recorded_witness :
    "producers" ≠ "name" ∧
    processPayload initState (.CustomSection "producers" [] 8 (.ok [])) =
      .ok { initState with
        section_offsets := [(.CustomSec, 8)],
        module := { Module.default with custom_sections := [⟨"producers", [], none⟩] } } :=
  ⟨by decide, C6_after_last_recorded initState "producers" [] 8 (.ok []) (by decide)⟩

/-- C1 counterexample: a module whose only function's body contains
`call 5` decodes successfully although the module has exactly one function
(so only index 0 is in bounds) — instruction-level function indices escape
all bounds checking. -/
theorem C1_counterexample :
    ((parse_module_with_offsets
      [ .TypeSection 10 [.Func ⟨[], []⟩],
        .FunctionSection 20 [0],
        .CodeSectionStart 1 30,
        .CodeSectionEntry ⟨[], [.Call 5, .End], 35⟩ ]).map
      (fun r => (r.1.functions.length,
        r.1.functions.map (fun f => match f.code with
          | .Present c => some c.body
          | .Imported _ _ => none)))) =
      .ok (1, [some [.Call 5, .End]]) ∧ ¬ (5 < 1) :=
  ⟨rfl, by decide⟩

set_option maxHeartbeats 1600000 in
/-- C1 amended: the instruction lowerer performs no bounds checks on the
entity indices it emits — `call`, `global.get`, `global.set` and the table
index of `call_indirect` are taken over verbatim for *every* index value,
so a successfully decoded Module may carry out-of-bounds indices inside
instructions.  Only `call_indirect`'s *type* index is resolved against the
type table. -/
theorem C1_instr_indices_unchecked (t : Types) (i tableIdx tyIdx : Nat)
    (ft : FunctionType) (h : Types.get t tyIdx = .ok ft) :
    convert_instr (.Call i) t = .ok (.Call i) ∧
    convert_instr (.GlobalGet i) t = .ok (.Global .Get i) ∧
    convert_instr (.GlobalSet i) t = .ok (.Global .Set i) ∧
    convert_instr (.CallIndirect tyIdx tableIdx) t = .ok (.CallIndirect ft tableIdx) := by
  refine ⟨rfl, rfl, rfl, ?_⟩
  simp [convert_instr, h]

/-- Witness for C1 with a one-entry type table and table index 99. -/
theorem C1_instr_indices_unchecked_witness :
    Types.get (some [⟨[], []⟩]) 0 = .ok ⟨[], []⟩ ∧
    convert_instr (.CallIndirect 0 99) (some [⟨[], []⟩]) =
      .ok (.CallIndirect ⟨[], []⟩ 99) :=
  ⟨rfl, (C1_instr_indices_unchecked (some [⟨[], []⟩]) 123 99 0 ⟨[], []⟩ rfl).2.2.2⟩

/-- C7 counterexample: two module-defined functions but a code section
declaring a single body decode successfully — one body is installed and
the other function keeps its placeholder — so the number of code bodies
(1, also the length of the recorded function-offsets list) differs from
the number of module-defined functions (2). -/
theorem C7_counterexample :
    ((parse_module_with_offsets
      [ .TypeSection 10 [.Func ⟨[], []⟩],
        .FunctionSection 20 [0, 0],
        .CodeSectionStart 1 30,
        .CodeSectionEntry ⟨[], [.End], 35⟩ ]).map
      (fun r => (r.1.functions.length, r.2.functions_code.length))) = .ok (2, 1) :=
  rfl

/-- C7 amended: every code-section entry records
`funcidx = imported_function_count + code_index` both in the staging buffer
and in the function-offsets table, and the final splice installs body i
into `functions[imported_function_count + i]` — but the number of bodies is
not required to match the number of module-defined functions (see the
counterexample).  The second conjunct exercises the splice end to end:
with one imported function and two bodies, body 0 lands in `functions[1]`
and body 1 in `functions[2]`, and the offsets carry funcidx 1 and 2. -/
theorem C7_body_function_alignment (st : ParseState) (body : WpFunctionBody)
    (h : st.current_code_idx + 1 ≠ st.code_entries_count) :
    processPayload st (.CodeSectionEntry body) =
      .ok { st with
        function_offsets := st.function_offsets ++
          [(st.numImportedFunctions + st.current_code_idx, body.range_start)],
        function_bodies := st.function_bodies ++
          [(st.numImportedFunctions + st.current_code_idx, body)],
        current_code_idx := st.current_code_idx + 1 } ∧
    ((parse_module_with_offsets
      [ .TypeSection 10 [.Func ⟨[], []⟩],
        .ImportSection 15 [⟨"env", some "print", .Function 0⟩],
        .FunctionSection 20 [0, 0],
        .CodeSectionStart 2 30,
        .CodeSectionEntry ⟨[], [.End], 35⟩,
        .CodeSectionEntry ⟨[], [.Nop, .End], 40⟩ ]).map
      (fun r => (r.2.functions_code,
        r.1.functions.map (fun f => match f.code with
          | .Present c => some c.body
          | .Imported _ _ => none)))) =
      .ok ([(1, 35), (2, 40)], [none, some [.End], some [.Nop, .End]]) := by
  refine ⟨?_, rfl⟩
  simp [processPayload, h]

/-- Witness for C7 in the initial state (code count 0, so entry 1 is not
the last). -/
theorem C7_body_function_alignment_witness :
    initState.current_code_idx + 1 ≠ initState.code_entries_count ∧
    (processPayload initState (.CodeSectionEntry ⟨[], [.End], 35⟩) =
      .ok { initState with
        function_offsets := [(0, 35)],
        function_bodies := [(0, ⟨[], [.End], 35⟩)],
        current_code_idx := 1 } ∧
    ((parse_module_with_offsets
      [ .TypeSection 10 [.Func ⟨[], []⟩],
        .ImportSection 15 [⟨"env", some "print", .Function 0⟩],
        .FunctionSection 20 [0, 0],
        .CodeSectionStart 2 30,
        .CodeSectionEntry ⟨[], [.End], 35⟩,
        .CodeSectionEntry ⟨[], [.Nop, .End], 40⟩ ]).map
      (fun r => (r.2.functions_code,
        r.1.functions.map (fun f => match f.code with
          | .Present c => some c.body
          | .Imported _ _ => none)))) =
      .ok ([(1, 35), (2, 40)], [none, some [.End], some [.Nop, .End]])) :=
  ⟨by decide, C7_body_function_alignment initState ⟨[], [.End], 35⟩ (by decide)⟩

/-- In the MVP IR the funcref kind is the only element type. -/
theorem ElemType.eq_anyfunc (e : ElemType) : e = .Anyfunc := by
  cases e
  rfl

/-- Error shape of `convert_ty`: every failure is an extension rejection or
a panic. -/
theorem convert_ty_err (ty : WpType) (e : ParseErr)
    (h : convert_ty ty = .error e) :
    (∃ x, e = ParseErr.unsupported x) ∨ (∃ s, e = ParseErr.panicked s) := by
  cases ty <;> simp only [convert_ty] at h <;>
    first
    | exact Except.noConfusion h
    | (injection h with h2; exact Or.inl ⟨_, h2.symm⟩)
    | (injection h with h2; exact Or.inr ⟨_, h2.symm⟩)

/-- Error shape of `convert_elem_ty`: every failure is an extension
rejection or a panic. -/
theorem convert_elem_ty_err (ty : WpType) (e : ParseErr)
    (h : convert_elem_ty ty = .error e) :
    (∃ x, e = ParseErr.unsupported x) ∨ (∃ s, e = ParseErr.panicked s) := by
  cases ty <;> simp only [convert_elem_ty] at h <;>
    first
    | exact Except.noConfusion h
    | (injection h with h2; exact Or.inl ⟨_, h2.symm⟩)
    | (injection h with h2; exact Or.inr ⟨_, h2.symm⟩)

/-- Error shape of `convert_block_ty`. -/
theorem convert_block_ty_err (ty : WpTypeOrFuncType) (e : ParseErr)
    (h : convert_block_ty ty = .error e) :
    (∃ x, e = ParseErr.unsupported x) ∨ (∃ s, e = ParseErr.panicked s) := by
  rcases ty with t | idx
  · cases t <;> simp only [convert_block_ty, convert_ty] at h <;>
      first
      | exact Except.noConfusion h
      | (injection h with h2; exact Or.inl ⟨_, h2.symm⟩)
      | (injection h with h2; exact Or.inr ⟨_, h2.symm⟩)
  · simp only [convert_block_ty] at h
    injection h with h2
    exact Or.inl ⟨_, h2.symm⟩

/-- Error shape of `convert_memarg`: every failure is an extension
rejection. -/
theorem convert_memarg_err (m : WpMemoryImmediate) (e : ParseErr)
    (h : convert_memarg m = .error e) : ∃ x, e = ParseErr.unsupported x := by
  simp only [convert_memarg] at h
  split at h
  · injection h with h2; exact ⟨_, h2.symm⟩
  · split at h
    · injection h with h2; exact ⟨_, h2.symm⟩
    · exact Except.noConfusion h

/-- Error shape of `Types.get`. -/
theorem Types.get_err (t : Types) (i : Nat) (e : ParseErr)
    (h : Types.get t i = .error e) :
    e = ParseErr.msg "missing type section" ∨
      ∃ n, e = ParseErr.indexError "FunctionType" n := by
  rcases t with _ | entries
  · simp only [Types.get] at h
    injection h with h2
    exact Or.inl h2.symm
  · simp only [Types.get] at h
    split at h
    · exact Except.noConfusion h
    · injection h with h2
      exact Or.inr ⟨i, h2.symm⟩

set_option maxHeartbeats 4000000 in
/-- Error shape of the instruction lowerer: every failure of
`convert_instr` is an extension rejection, a panic, the type table's
"missing type section" error, or an index error (from resolving a
call_indirect type index). -/
theorem convert_instr_err (op : Operator) (t : Types) (e : ParseErr)
    (h : convert_instr op t = .error e) :
    (∃ x, e = ParseErr.unsupported x) ∨ (∃ s, e = ParseErr.panicked s) ∨
    e = ParseErr.msg "missing type section" ∨
    (∃ k n, e = ParseErr.indexError k n) := by
  cases op <;> simp only [convert_instr] at h
  case CallIndirect index table_index =>
    split at h
    · exact Except.noConfusion h
    · injection h with h2
      subst h2
      rename_i heq
      rcases Types.get_err _ _ _ heq with hm | ⟨n, hn⟩
      · exact Or.inr (Or.inr (Or.inl hm))
      · exact Or.inr (Or.inr (Or.inr ⟨_, n, hn⟩))
  all_goals
    first
    | exact Except.noConfusion h
    | (injection h with h2; exact Or.inl ⟨_, h2.symm⟩)
    | (split at h <;>
        first
        | exact Except.noConfusion h
        | (injection h with h2; exact Or.inl ⟨_, h2.symm⟩)
        | (injection h with h2
           subst h2
           rename_i heq
           first
           | exact Or.inl (convert_memarg_err _ _ heq)
           | (rcases convert_block_ty_err _ _ heq with hx | hs
              · exact Or.inl hx
              · exact Or.inr (Or.inl hs))))

/-- Error shape of `convertInstrs`: the first failing operator's error. -/
theorem convertInstrs_err (t : Types) (l : List Operator) (e : ParseErr)
    (h : convertInstrs t l = .error e) :
    (∃ x, e = ParseErr.unsupported x) ∨ (∃ s, e = ParseErr.panicked s) ∨
    e = ParseErr.msg "missing type section" ∨
    (∃ k n, e = ParseErr.indexError k n) := by
  induction l with
  | nil => exact absurd h (by simp [convertInstrs])
  | cons op rest ih =>
    simp only [convertInstrs] at h
    split at h
    · injection h with h2
      subst h2
      rename_i heq
      exact convert_instr_err _ _ _ heq
    · split at h
      · injection h with h2
        subst h2
        rename_i heq
        exact ih heq
      · exact Except.noConfusion h

/-- Error shape of `processElemItems`: the only failure is the
ReferenceTypes rejection of an expression item. -/
theorem processElemItems_err (items : List WpElementItem) (e : ParseErr)
    (h : processElemItems items = .error e) :
    e = ParseErr.unsupported .ReferenceTypes := by
  induction items with
  | nil => exact absurd h (by simp [processElemItems])
  | cons it rest ih =>
    rcases it with idx | _
    · simp only [processElemItems] at h
      split at h
      · injection h with h2
        subst h2
        rename_i heq
        exact ih heq
      · exact Except.noConfusion h
    · simp only [processElemItems] at h
      injection h with h2
      exact h2.symm

/-- An error of any of the shapes above is not the element-section
mismatch error. -/
theorem not_mismatch_of_shape (e : ParseErr)
    (hsh : (∃ x, e = ParseErr.unsupported x) ∨ (∃ s, e = ParseErr.panicked s) ∨
      e = ParseErr.msg "missing type section" ∨
      (∃ k n, e = ParseErr.indexError k n)) :
    e ≠ .msg elemMismatchMsg := by
  rcases hsh with ⟨x, rfl⟩ | ⟨s, rfl⟩ | rfl | ⟨k, n, rfl⟩
  · intro hc; exact ParseErr.noConfusion hc
  · intro hc; exact ParseErr.noConfusion hc
  · intro hc
    injection hc with hs
    exact absurd hs (by decide)
  · intro hc; exact ParseErr.noConfusion hc

/-- The element-section handler never produces the table/element mismatch
error: both sides of its type guard are necessarily the funcref kind, and
every other error flowing through the handler has a different shape or a
different message. -/
theorem processElemEntries_ne_mismatch (types : Types) (m : Module)
    (entries : List WpElement) :
    processElemEntries types m entries ≠ .error (.msg elemMismatchMsg) := by
  induction entries generalizing m with
  | nil => simp [processElemEntries]
  | cons e rest ih =>
    intro h
    simp only [processElemEntries] at h
    split at h
    · rename_i err heq
      injection h with h2
      rcases convert_elem_ty_err _ _ heq with hx | hs
      · exact not_mismatch_of_shape _ (Or.inl hx) h2
      · exact not_mismatch_of_shape _ (Or.inr (Or.inl hs)) h2
    · split at h
      · rename_i err heq
        injection h with h2
        rw [processElemItems_err _ _ heq] at h2
        exact ParseErr.noConfusion h2
      · split at h
        · split at h
          · injection h with h2
            exact ParseErr.noConfusion h2
          · split at h
            · rename_i hguard
              exact hguard ((ElemType.eq_anyfunc _).trans (ElemType.eq_anyfunc _).symm)
            · split at h
              · rename_i err heq
                injection h with h2
                exact not_mismatch_of_shape _ (convertInstrs_err _ _ _ heq) h2
              · exact ih _ h
        · injection h with h2
          exact ParseErr.noConfusion h2
        · injection h with h2
          exact ParseErr.noConfusion h2

/-- C10: the element-section error branch "type error: table and element
not fitting together" is unreachable.  Whenever `convert_elem_ty` succeeds
it returns the funcref element kind (`Anyfunc`); every table type
constructed by `convert_table_ty` carries that same kind; and consequently
processing an element section can never return the mismatch error, from
any dispatcher state. -/
theorem C10_elem_mismatch_unreachable (ty : WpType) (et : ElemType)
    (wt : WpTableType) (tt : TableType) (st : ParseState)
    (range_start : Nat) (entries : List WpElement)
    (_h1 : convert_elem_ty ty = .ok et) (_h2 : convert_table_ty wt = .ok tt) :
    et = .Anyfunc ∧ tt.elemType = .Anyfunc ∧
    processPayload st (.ElementSection range_start entries) ≠
      .error (.msg elemMismatchMsg) := by
  refine ⟨ElemType.eq_anyfunc et, ElemType.eq_anyfunc tt.elemType, ?_⟩
  intro h
  simp only [processPayload] at h
  split at h
  · rename_i heq
    injection h with h3
    subst h3
    exact processElemEntries_ne_mismatch _ _ _ heq
  · exact Except.noConfusion h

/-- Witness for C10 at the funcref element type, a funcref table type, and
a concrete active element segment in the initial state. -/
theorem C10_elem_mismatch_unreachable_witness :
    convert_elem_ty .FuncRef = .ok .Anyfunc ∧
    convert_table_ty ⟨.FuncRef, 1, none⟩ = .ok ⟨.Anyfunc, ⟨1, none⟩⟩ ∧
    (ElemType.Anyfunc = ElemType.Anyfunc ∧
      TableType.elemType ⟨.Anyfunc, ⟨1, none⟩⟩ = .Anyfunc ∧
      processPayload initState
        (.ElementSection 40 [⟨.FuncRef, [.Func 0], .Active 0 [.I32Const 0, .End]⟩]) ≠
        .error (.msg elemMismatchMsg)) :=
  ⟨rfl, rfl,
    C10_elem_mismatch_unreachable .FuncRef .Anyfunc ⟨.FuncRef, 1, none⟩
      ⟨.Anyfunc, ⟨1, none⟩⟩ initState 40
      [⟨.FuncRef, [.Func 0], .Active 0 [.I32Const 0, .End]⟩] rfl rfl⟩

end Wasm
